import Mathlib

/-!
Verification of the quickform schema-driven source generator.

The repository ships the template library (notably
`templates/express/src/models/modelv3.ts.jinja` and the app-entrypoint
template), example generated output (`outputs/express-01/...`), and design
documents.  The templates and generated files are embedded here directly from
their sources.  The generator core (schema validator, orchestrator, output
manager) is not present in the repository; where a claim depends on it, the
corresponding definition is modelled from the specification and is marked as
such in its doc comment.
-/

namespace QF

/-! ### String helpers

Kernel-reducible replacements for the string operations the templates use.
`lowerStr` is the `lower` template filter, `joinSep` is the `join` filter and
`indentBy` is the combined effect of the template's literal indentation plus
the `indent(n)` filter on an opaque multi-line body (every line of the body
ends up shifted by the same column count). -/

def lowerStr (s : String) : String := ⟨s.data.map Char.toLower⟩

def joinSep (sep : String) : List String → String
  | [] => ""
  | [x] => x
  | x :: y :: rest => x ++ sep ++ joinSep sep (y :: rest)

def spacesN (n : Nat) : String := String.mk (List.replicate n ' ')

def indentBy (n : Nat) (lines : List String) : List String :=
  lines.map (fun s => spacesN n ++ s)

def commaSp : String := ", "

/-- `strInfix c s` : the character sequence of `c` occurs contiguously in `s`. -/
def strInfix (c s : String) : Prop := c.data <:+: s.data

instance (c s : String) : Decidable (strInfix c s) := by
  unfold strInfix; infer_instance

theorem strInfix_left (c a b : String) (h : strInfix c a) : strInfix c (a ++ b) := by
  rcases h with ⟨p, q, hpq⟩
  exact ⟨p, q ++ b.data, by rw [String.data_append, ← hpq]; simp [List.append_assoc]⟩

theorem strInfix_right (c a b : String) (h : strInfix c b) : strInfix c (a ++ b) := by
  rcases h with ⟨p, q, hpq⟩
  exact ⟨a.data ++ p, q, by rw [String.data_append, ← hpq]; simp [List.append_assoc]⟩

theorem strInfix_refl (c : String) : strInfix c c := ⟨[], [], by simp⟩

theorem ne_of_chunk (chunk line target : String) (h1 : strInfix chunk line)
    (h2 : ¬ strInfix chunk target) : line ≠ target := by
  intro he
  exact h2 (he ▸ h1)

/-! ### Schema data model

Pure data definitions for the render context of one model, matching the
dotted paths the `modelv3.ts.jinja` template dereferences:
`model.name`, `model.fields[].name/type/schemaType/options`,
`model.methods[].name/params/returnType/description/implementation`,
`model.hooks[].event/description/implementation`,
`model.features.database/auth`.  Opaque implementation bodies are kept as
lists of lines (the generator treats them as uninterpreted text). -/

structure Field where
  name : String
  type : String
  schemaType : String
  options : List (String × String)
deriving DecidableEq

structure Method where
  name : String
  params : List String
  returnType : String
  description : String
  implementation : List String
deriving DecidableEq

structure Hook where
  event : String
  description : String
  implementation : List String
deriving DecidableEq

structure Features where
  database : String
  auth : Bool
deriving DecidableEq

structure Model where
  name : String
  fields : List Field
  methods : List Method
  hooks : List Hook
  features : Features
deriving DecidableEq

/-! ### The modelv3 template, embedded line by line

`templates/express/src/models/modelv3.ts.jinja`, rendered to a list of
output lines (blank separator lines elided). -/

def mongoDbTag : String := "MONGO_DB"

def firebaseTag : String := "FIREBASE"

def headerComment : String := "// templates/express/models/model.ts.jinja"

def importMongooseLine : String := "import mongoose, \x7b Document, Model \x7d from \"mongoose\";"

def importFirestoreLine : String := "import \x7b getFirestore \x7d from \x27firebase-admin/firestore\x27;"

def importBcryptLine : String := "import bcrypt from \"bcrypt\";"

def getFirestoreCallLine : String := "const db = getFirestore();"

/-- Lines 2-9 of the template: database-import conditional chain followed by
the `model.features.auth` bcrypt-import conditional. -/
def importsSection (m : Model) : List String :=
  ( if m.features.database = mongoDbTag then [importMongooseLine]
    else if m.features.database = firebaseTag then [importFirestoreLine]
    else [] )
  ++ (if m.features.auth then [importBcryptLine] else [])

def ifaceFieldLine (f : Field) : String :=
  "  " ++ f.name ++ ": " ++ f.type ++ ";"

def ifaceMethodLine (mt : Method) : String :=
  "  " ++ mt.name ++ "(" ++ joinSep commaSp mt.params ++ "): Promise<" ++ mt.returnType ++ ">;"

/-- The `interface I<Name>` block (template lines 11-24). -/
def interfaceSection (m : Model) : List String :=
  [ "// Define the " ++ m.name ++ " interface" ]
  ++ ( if m.features.database = mongoDbTag then
        [ "interface I" ++ m.name ++ " extends Document \x7b" ]
      else
        [ "interface I" ++ m.name ++ " \x7b", "  id: string;" ] )
  ++ m.fields.map ifaceFieldLine
  ++ m.methods.map ifaceMethodLine
  ++ [ "\x7d" ]

def optionLine (ov : String × String) : String :=
  "    " ++ ov.1 ++ ": " ++ ov.2 ++ ","

def schemaFieldBlock (f : Field) : List String :=
  [ "  " ++ f.name ++ ": \x7b", "    type: " ++ f.schemaType ++ "," ]
  ++ f.options.map optionLine
  ++ [ "  \x7d," ]

def mongoHookBlock (low iname : String) (h : Hook) : List String :=
  [ "// " ++ h.description,
    low ++ "Schema.pre<I" ++ iname ++ ">(\"" ++ h.event ++ "\", async function (next) \x7b" ]
  ++ indentBy 2 h.implementation
  ++ [ "  next();", "\x7d);" ]

def mongoMethodBlock (low : String) (mt : Method) : List String :=
  [ "// " ++ mt.description,
    low ++ "Schema.methods." ++ mt.name ++ " = async function (",
    "  " ++ joinSep commaSp mt.params,
    "): Promise<" ++ mt.returnType ++ "> \x7b" ]
  ++ indentBy 2 mt.implementation
  ++ [ "\x7d;" ]

/-- The `{% if model.features.database == 'MONGO_DB' %}` branch of the
template body (template lines 26-57). -/
def mongoBody (m : Model) : List String :=
  [ "// Define the " ++ lowerStr m.name ++ " schema",
    "const " ++ lowerStr m.name ++ "Schema = new mongoose.Schema<I" ++ m.name ++ ">(\x7b" ]
  ++ m.fields.flatMap schemaFieldBlock
  ++ [ "\x7d);" ]
  ++ m.hooks.flatMap (mongoHookBlock (lowerStr m.name) m.name)
  ++ m.methods.flatMap (mongoMethodBlock (lowerStr m.name))
  ++ [ "// Create the " ++ lowerStr m.name ++ " model",
       "const " ++ m.name ++ ": Model<I" ++ m.name ++ "> = mongoose.model<I" ++ m.name
         ++ ">(\"" ++ m.name ++ "\", " ++ lowerStr m.name ++ "Schema);" ]

def fbCtorLine (f : Field) : String :=
  "    this." ++ f.name ++ " = data." ++ f.name ++ ";"

def fbMethodBlock (mt : Method) : List String :=
  [ "  // " ++ mt.description,
    "  async " ++ mt.name ++ "(" ++ joinSep commaSp mt.params ++ "): Promise<" ++ mt.returnType ++ "> \x7b" ]
  ++ indentBy 4 mt.implementation
  ++ [ "  \x7d" ]

/-- The `{% else %}` (Firestore-backed) branch of the template body
(template lines 58-94).  Note: hooks are not rendered in this branch. -/
def firebaseBody (m : Model) : List String :=
  [ "// Firebase implementation",
    getFirestoreCallLine,
    "const " ++ lowerStr m.name ++ "Collection = db.collection(\x27" ++ lowerStr m.name ++ "s\x27);",
    "class " ++ m.name ++ " implements I" ++ m.name ++ " \x7b",
    "  id: string;" ]
  ++ m.fields.map ifaceFieldLine
  ++ [ "  constructor(data: Partial<I" ++ m.name ++ ">) \x7b",
       "    this.id = data.id || \x27\x27;" ]
  ++ m.fields.map fbCtorLine
  ++ [ "  \x7d" ]
  ++ m.methods.flatMap fbMethodBlock
  ++ [ "  // Static methods for Firebase operations",
       "  static async findById(id: string): Promise<" ++ m.name ++ " | null> \x7b",
       "    const doc = await " ++ lowerStr m.name ++ "Collection.doc(id).get();",
       "    return doc.exists ? new " ++ m.name ++ "(\x7b id: doc.id, ...doc.data() \x7d) : null;",
       "  \x7d",
       "  static async create(data: Partial<I" ++ m.name ++ ">): Promise<" ++ m.name ++ "> \x7b",
       "    const docRef = await " ++ lowerStr m.name ++ "Collection.add(data);",
       "    return new " ++ m.name ++ "(\x7b id: docRef.id, ...data \x7d);",
       "  \x7d",
       "\x7d" ]

def bodySection (m : Model) : List String :=
  if m.features.database = mongoDbTag then mongoBody m else firebaseBody m

/-- Full render of `modelv3.ts.jinja` against a single-model context. -/
def renderModelV3 (m : Model) : List String :=
  [ headerComment ]
  ++ importsSection m
  ++ interfaceSection m
  ++ bodySection m
  ++ [ "export default " ++ m.name ++ ";" ]

/-! ### Orchestrator: per-model template selection

Modelled from the spec: the Generation Orchestrator is not part of the
repository sources.  Per the spec, "an authentication-enabled model pulls in
an additional credential-hashing hook template".  The content of that hook
template is taken from the repository's generated example
`outputs/express-01` (the `userSchema.pre("save")` block of the generated
user model). -/

def credentialHashingHook : Hook :=
  { event := "save",
    description := "Hash the user\x27s password before saving to the database",
    implementation :=
      [ "if (this.isModified(\"password\")) \x7b",
        "  this.password = await bcrypt.hash(this.password, 10);",
        "\x7d" ] }

/-- Modelled from the spec: orchestrator feature selection for one model.
An auth-enabled model pulls in the credential-hashing hook template; any
other model is rendered as declared. -/
def prepareModel (m : Model) : Model :=
  if m.features.auth then
    { m with hooks := m.hooks ++ [credentialHashingHook] }
  else m

/-- The hash-call line the credential-hashing hook contributes to a rendered
MongoDB artifact (its implementation body shifted to the hook's column). -/
def credentialHashCallLine : String :=
  "    this.password = await bcrypt.hash(this.password, 10);"

/-- A rendered data-model artifact contains the credential-hashing hook's
password-hash call. -/
def containsCredentialHook (lines : List String) : Prop :=
  credentialHashCallLine ∈ lines

instance (lines : List String) : Decidable (containsCredentialHook lines) := by
  unfold containsCredentialHook; infer_instance

/-! ### The app-entrypoint template, embedded

The unnamed app template of the repository (`app.ts.jinja`): model-import
loop, optional CORS block, and the aggregate route-registration loop, all
rendered from the full Schema as context. -/

structure AppFeatures where
  cors : Bool
deriving DecidableEq

/-- The full-schema render context: the complete model list plus the global
feature toggles. -/
structure GenSchema where
  models : List Model
  features : AppFeatures
deriving DecidableEq

def routeImportLine (m : Model) : String :=
  "import " ++ lowerStr m.name ++ "Routes from \"./routes/" ++ lowerStr m.name ++ "Routes\";"

def routeUseBlock (m : Model) : List String :=
  [ "// Use " ++ lowerStr m.name ++ " routes for handling requests to /api/" ++ lowerStr m.name ++ "s",
    "app.use(\"/api/" ++ lowerStr m.name ++ "s\", " ++ lowerStr m.name ++ "Routes);" ]

def corsImportLine : String := "import cors from \"cors\";"

def corsBlock : List String :=
  [ "// Enable CORS for all routes",
    "app.use(cors(\x7b",
    "  origin: process.env.CORS_ORIGIN || \x27*\x27,",
    "  methods: [\x27GET\x27, \x27POST\x27, \x27PUT\x27, \x27DELETE\x27, \x27PATCH\x27],",
    "  allowedHeaders: [\x27Content-Type\x27, \x27Authorization\x27]",
    "\x7d));" ]

/-- Render of the app-entrypoint template against the full schema. -/
def renderApp (s : GenSchema) : List String :=
  [ "import express from \"express\";", "import bodyParser from \"body-parser\";" ]
  ++ (if s.features.cors then [corsImportLine] else [])
  ++ s.models.map routeImportLine
  ++ [ "import \x7b errorHandler \x7d from \"./utils/errorHandler\";", "const app = express();" ]
  ++ (if s.features.cors then corsBlock else [])
  ++ [ "// Middleware to parse incoming request bodies", "app.use(bodyParser.json());" ]
  ++ s.models.flatMap routeUseBlock
  ++ [ "// Error handling middleware", "app.use(errorHandler);", "export default app;" ]

/-! ### Artifacts, run assembly and the output manager

Modelled from the spec: the Orchestrator and Output Manager are not part of
the repository sources.  Per the spec, per-model artifacts are produced
first (in any execution order), project-level artifacts once per run
afterwards with the full Schema as context, the final list is sorted by
output path, and the Output Manager stages everything and writes only when
the run recorded zero failures. -/

structure Artifact where
  path : String
  content : List String
deriving DecidableEq

def modelsDirPrefix : String := "src/models/"

def tsSuffix : String := ".ts"

/-- Per-model artifact: path derived from the case-normalized model name,
content rendered from the modelv3 template after orchestrator feature
selection. -/
def modelArtifact (m : Model) : Artifact :=
  ⟨ modelsDirPrefix ++ lowerStr m.name ++ tsSuffix, renderModelV3 (prepareModel m) ⟩

def appPath : String := "src/app.ts"

/-- Project-level artifact: the application entrypoint, rendered once from
the full Schema. -/
def appArtifact (s : GenSchema) : Artifact := ⟨ appPath, renderApp s ⟩

/-- Staged (pre-sort) artifact list for a run whose per-model work completed
in the order `order`: all per-model artifacts first, then the project-level
artifact, generated once from the full schema. -/
def stagedArtifacts (order : List Model) (s : GenSchema) : List Artifact :=
  order.map modelArtifact ++ [ appArtifact s ]

def pathLe (a b : Artifact) : Prop := a.path ≤ b.path

instance : DecidableRel pathLe := fun a b => by
  unfold pathLe; infer_instance

instance : IsTotal Artifact pathLe := ⟨fun a b => le_total a.path b.path⟩

instance : IsTrans Artifact pathLe := ⟨fun _ _ _ h1 h2 => le_trans h1 h2⟩

def pathLt (a b : Artifact) : Prop := a.path < b.path

instance : IsAntisymm Artifact pathLt :=
  ⟨fun _ _ h1 h2 => absurd h2 (lt_asymm h1)⟩

/-- Final artifact list: stable ordering by output path. -/
def sortArtifacts (l : List Artifact) : List Artifact :=
  List.insertionSort pathLe l

/-- No two artifacts of a run may target the same output path. -/
def pathsNodup (l : List Artifact) : Prop := (l.map Artifact.path).Nodup

instance (l : List Artifact) : Decidable (pathsNodup l) := by
  unfold pathsNodup; infer_instance

/-- One generation run whose per-model work was scheduled in order `order`. -/
def generateOrd (order : List Model) (s : GenSchema) : List Artifact :=
  sortArtifacts (stagedArtifacts order s)

/-- Canonical generation run (declaration-order scheduling). -/
def generate (s : GenSchema) : List Artifact := generateOrd s.models s

/-- Target directory state: path-to-content mapping. -/
abbrev FileSys := List (String × List String)

/-- Overwrite-policy write of a single artifact. -/
def writeArtifact (fs : FileSys) (a : Artifact) : FileSys :=
  fs.filter (fun e => e.1 != a.path) ++ [ (a.path, a.content) ]

/-- Modelled from the spec: Output Manager commit discipline.  All artifacts
are staged; the write phase happens only if the orchestrator reported zero
failures, otherwise the target directory is left untouched. -/
def commitRun (failures : List String) (arts : List Artifact) (fs : FileSys) : FileSys :=
  if failures.isEmpty then arts.foldl writeArtifact fs else fs

/-! ### Schema semantic validation

Modelled from the spec: the Schema Parser & Validator is not part of the
repository sources.  Per the spec it runs after structural decoding and
aggregates one diagnostic per violation of rules (a)-(f) before reporting
them all in a single `SchemaError`. -/

inductive VType where
  | str
  | num
  | boolean
  | enum (values : List String)
  | decimal
  | date
  | reference
deriving DecidableEq

structure VField where
  name : String
  vtype : VType
deriving DecidableEq

structure VHook where
  event : String
deriving DecidableEq

structure VRelation where
  target : String
deriving DecidableEq

structure VModel where
  name : String
  vfields : List VField
  vhooks : List VHook
  vrels : List VRelation
deriving DecidableEq

structure VConfig where
  backend : String
  authMode : String
deriving DecidableEq

/-- Structurally decoded schema document: the input to semantic validation. -/
structure VSchema where
  vmodels : List VModel
  config : VConfig
deriving DecidableEq

/-- Modelled from the spec: the allowed lifecycle vocabulary for hook events. -/
def allowedEvents : List String :=
  [ "pre-save", "post-save", "pre-delete", "post-delete" ]

/-- Modelled from the spec: the closed enumeration of storage backends. -/
def allowedBackends : List String := [ mongoDbTag, firebaseTag, "POSTGRESQL" ]

/-- Modelled from the spec: the closed enumeration of auth modes. -/
def allowedAuthModes : List String := [ "none", "jwt" ]

/-- Occurrences of a name after its first occurrence (one entry per
duplicate occurrence). -/
def dupOccurrences (seen : List String) : List String → List String
  | [] => []
  | x :: xs =>
    if x ∈ seen then x :: dupOccurrences seen xs
    else dupOccurrences (x :: seen) xs

/-- Rule (a): every model has at least one field. -/
def ruleMissingFields (s : VSchema) : List String :=
  (s.vmodels.filter (fun m => m.vfields.isEmpty)).map
    (fun m => "model has no fields: " ++ m.name)

/-- Rule (b): field names unique per model. -/
def ruleDupFields (s : VSchema) : List String :=
  s.vmodels.flatMap (fun m =>
    (dupOccurrences [] (m.vfields.map VField.name)).map
      (fun n => "duplicate field name: " ++ m.name ++ "." ++ n))

def isEmptyEnum : VType → Bool
  | .enum values => values.isEmpty
  | _ => false

/-- Rule (c): enum fields declare a non-empty value set. -/
def ruleEmptyEnums (s : VSchema) : List String :=
  s.vmodels.flatMap (fun m =>
    (m.vfields.filter (fun f => isEmptyEnum f.vtype)).map
      (fun f => "enum field with empty value set: " ++ m.name ++ "." ++ f.name))

/-- Rule (d): every relation target names an existing model. -/
def ruleDanglingRelations (s : VSchema) : List String :=
  s.vmodels.flatMap (fun m =>
    (m.vrels.filter (fun r => !((s.vmodels.map VModel.name).contains r.target))).map
      (fun r => "unresolved relation target: " ++ m.name ++ " -> " ++ r.target))

/-- Rule (e): every hook event is from the allowed lifecycle vocabulary. -/
def ruleUnknownEvents (s : VSchema) : List String :=
  s.vmodels.flatMap (fun m =>
    (m.vhooks.filter (fun h => !(allowedEvents.contains h.event))).map
      (fun h => "unknown hook event: " ++ m.name ++ "." ++ h.event))

/-- Rule (f): global Config selections are from closed enumerations. -/
def ruleConfig (s : VSchema) : List String :=
  ( if allowedBackends.contains s.config.backend then []
    else [ "invalid storage backend: " ++ s.config.backend ] )
  ++ ( if allowedAuthModes.contains s.config.authMode then []
       else [ "invalid auth mode: " ++ s.config.authMode ] )

/-- All semantic diagnostics of one run, aggregated across the six rules. -/
def validateDiags (s : VSchema) : List String :=
  ruleMissingFields s ++ ruleDupFields s ++ ruleEmptyEnums s
    ++ ruleDanglingRelations s ++ ruleUnknownEvents s ++ ruleConfig s

structure SchemaError where
  diags : List String
deriving DecidableEq

/-- Modelled from the spec: validation returns the schema unchanged or fails
with a single `SchemaError` carrying the complete diagnostic list. -/
def validate (s : VSchema) : Except SchemaError VSchema :=
  if validateDiags s = [] then .ok s else .error ⟨validateDiags s⟩

/-! ### The generated authentication middleware

`outputs/express-01/src/middleware/authMiddleware.ts`, embedded as a
function of the request's Authorization header and of the two effectful
collaborators the code awaits: `jwt.verify(token, config.jwtSecret)`
(abstracted as `verifyTok`, failure = thrown error) and
`User.findOne({ _id: decoded.id })` (abstracted as `findUser`; `.error` =
thrown error, `.ok none` = no such user).  The surrounding try/catch maps
any thrown error to a 401 response. -/

structure JwtPayload where
  id : String
deriving DecidableEq

structure UserRec where
  uid : String
deriving DecidableEq

inductive MwOutcome where
  | respond401 (msg : String)
  | callNext (attachedUser : UserRec)
deriving DecidableEq

/-- Removes the first occurrence of `pat` from the character list (the
semantics of JavaScript `String.replace` with a string pattern and empty
replacement). -/
def removeFirst (pat : List Char) : List Char → List Char
  | [] => []
  | c :: rest =>
    if pat.isPrefixOf (c :: rest) then (c :: rest).drop pat.length
    else c :: removeFirst pat rest

def bearerPat : String := "Bearer "

/-- `header?.replace("Bearer ", "")` on a present header value. -/
def stripBearerOnce (s : String) : String := ⟨removeFirst bearerPat.data s.data⟩

def noTokenMsg : String := "No token provided, authorization denied"

def invalidTokenMsg : String := "Token is not valid"

def userNotFoundMsg : String := "Unauthorized, user not found"

def authMiddleware (authHeader : Option String)
    (verifyTok : String → Except String JwtPayload)
    (findUser : String → Except String (Option UserRec)) : MwOutcome :=
  match authHeader with
  | none => .respond401 noTokenMsg
  | some h =>
    let token := stripBearerOnce h
    if token = "" then .respond401 noTokenMsg
    else
      match verifyTok token with
      | .error _ => .respond401 invalidTokenMsg
      | .ok payload =>
        match findUser payload.id with
        | .error _ => .respond401 invalidTokenMsg
        | .ok none => .respond401 userNotFoundMsg
        | .ok (some u) => .callNext u

/-! ### The generated config module

`outputs/express-01/src/config/config.ts`, embedded.  `assert(x)` on an
environment variable fails iff the value is absent or the empty string
(JavaScript truthiness on `string | undefined`).  `Number(process.env.PORT)`
is modelled on non-negative integer literals; a non-numeric string gives
`none` (NaN).  `a || b` on numbers falls through to `b` when `a` is `NaN`
or `0`. -/

structure EnvMap where
  envPORT : Option String
  envMONGODB_URI : Option String
  envJWT_SECRET : Option String
  envDOMAIN : Option String
deriving DecidableEq

def truthyEnv : Option String → Bool
  | none => false
  | some s => !(s = "")

def digitsToNat (l : List Char) : Nat :=
  l.foldl (fun acc c => acc * 10 + (c.toNat - 48)) 0

/-- JavaScript `Number(s)` restricted to non-negative decimal integer
literals; `none` models NaN. -/
def jsNumberInt (s : String) : Option Int :=
  if s ≠ "" ∧ s.data.all Char.isDigit then some (Int.ofNat (digitsToNat s.data)) else none

/-- JavaScript `a || b` for a numeric left operand (`none` = NaN). -/
def jsOrInt (v : Option Int) (d : Int) : Int :=
  match v with
  | none => d
  | some n => if n = 0 then d else n

def orDefaultStr (v : Option String) (d : String) : String :=
  match v with
  | none => d
  | some s => if s = "" then d else s

structure AppConfig where
  port : Int
  mongodbUri : String
  jwtSecret : String
  domain : String
deriving DecidableEq

def portAssertMsg : String := "PORT environment variable is required"

def mongoAssertMsg : String := "MONGODB_URI environment variable is required"

def jwtAssertMsg : String := "JWT_SECRET environment variable is required"

def mongoDefault : String := "mongodb://localhost:27017/myapp"

def jwtDefault : String := "your_secret_key"

def domainDefault : String := "http://localhost:8080"

/-- Module load: the three assertions, then construction of the exported
config object with its fallback defaults. -/
def loadConfig (env : EnvMap) : Except String AppConfig :=
  if !truthyEnv env.envPORT then .error portAssertMsg
  else if !truthyEnv env.envMONGODB_URI then .error mongoAssertMsg
  else if !truthyEnv env.envJWT_SECRET then .error jwtAssertMsg
  else
    .ok
      { port :=
          jsOrInt (jsNumberInt (match env.envPORT with | none => "" | some s => s)) 3000,
        mongodbUri := orDefaultStr env.envMONGODB_URI mongoDefault,
        jwtSecret := orDefaultStr env.envJWT_SECRET jwtDefault,
        domain := orDefaultStr env.envDOMAIN domainDefault }

/-! ### The template set's filter applications

Filter applications transcribed from each template source of the
repository, and the classification of filter names into the three kinds the
spec allows. -/

structure TemplateSrc where
  name : String
  filtersUsed : List String
deriving DecidableEq

/-- `templates/express/src/models/modelv3.ts.jinja`: applies `lower`,
`join(', ')`, `indent(2)` and `indent(4)`. -/
def modelv3Template : TemplateSrc :=
  ⟨ "templates/express/src/models/modelv3.ts.jinja", [ "lower", "join", "indent" ] ⟩

/-- The unnamed app-entrypoint template (`app.ts.jinja`): applies `lower`. -/
def appTemplate : TemplateSrc :=
  ⟨ "templates/express/src/app.ts.jinja", [ "lower" ] ⟩

/-- The unnamed first-version model template
(`templates/express/models/model.ts.jinja`): applies `lower`, `join`,
`indent`. -/
def modelV1Template : TemplateSrc :=
  ⟨ "templates/express/models/model.ts.jinja", [ "lower", "join", "indent" ] ⟩

/-- The example template shown in the repository README
(`Your account was created on {{ user.created_at | date }}.`): applies a
`date` filter. -/
def readmeExampleTemplate : TemplateSrc :=
  ⟨ "README.md example template", [ "date" ] ⟩

/-- Every template text present in the repository. -/
def repoTemplates : List TemplateSrc :=
  [ modelv3Template, appTemplate, modelV1Template, readmeExampleTemplate ]

/-- The template files of the shipped template library (the README example
is documentation, not a shipped template). -/
def shippedTemplates : List TemplateSrc :=
  [ modelv3Template, appTemplate, modelV1Template ]

inductive FilterKind where
  | caseTransform
  | listJoin
  | indentBody
  | other
deriving DecidableEq

def filterKind (f : String) : FilterKind :=
  if f = "lower" ∨ f = "upper" ∨ f = "title" ∨ f = "capitalize" then .caseTransform
  else if f = "join" then .listJoin
  else if f = "indent" then .indentBody
  else .other

/-! ### Forced text chunks of the template's line shapes

Every line the mongoose branch of `modelv3.ts.jinja` can emit carries one of
these template-fixed character sequences, regardless of the schema content
spliced around it. -/

def chTwoSp : String := "  "

def chComment : String := "// "

def chSchemaWord : String := " schema"

def chParenBrace : String := ">(\x7b"

def chColonBrace : String := ": \x7b"

def chComma : String := ","

def chAsyncFn : String := "async function"

def chGtBrace : String := "> \x7b"

def chModelWord : String := " model"

def chSchemaClose : String := "Schema);"

def filterLower : String := "lower"

/-! ### Concrete fixtures used by witnesses and counterexamples -/

def demoFbAuthUser : Model :=
  { name := "User",
    fields := [ ⟨ "email", "string", "String", [] ⟩,
                ⟨ "password", "string", "String", [] ⟩ ],
    methods := [],
    hooks := [],
    features := ⟨ firebaseTag, true ⟩ }

def demoMongoAuthUser : Model :=
  { name := "User",
    fields := [ ⟨ "email", "string", "String", [ ("required", "true") ] ⟩,
                ⟨ "password", "string", "String", [] ⟩ ],
    methods := [],
    hooks := [],
    features := ⟨ mongoDbTag, true ⟩ }

def demoPgModel : Model :=
  { name := "Item",
    fields := [ ⟨ "label", "string", "String", [] ⟩ ],
    methods := [],
    hooks := [],
    features := ⟨ "POSTGRESQL", false ⟩ }

def demoItem : Model :=
  { name := "Item",
    fields := [ ⟨ "label", "string", "String", [] ⟩ ],
    methods := [],
    hooks := [],
    features := ⟨ mongoDbTag, false ⟩ }

def demoSchema : GenSchema :=
  { models := [ demoItem, demoMongoAuthUser ], features := ⟨ false ⟩ }

def demoBadSchema : VSchema :=
  { vmodels :=
      [ { name := "Order", vfields := [], vhooks := [], vrels := [ ⟨ "Shipment" ⟩ ] },
        { name := "Item",
          vfields := [ ⟨ "label", .str ⟩, ⟨ "label", .num ⟩ ],
          vhooks := [ ⟨ "on-fire" ⟩ ],
          vrels := [] } ],
    config := ⟨ mongoDbTag, "jwt" ⟩ }

def demoGoodSchema : VSchema :=
  { vmodels :=
      [ { name := "Item",
          vfields := [ ⟨ "label", .str ⟩ ],
          vhooks := [ ⟨ "pre-save" ⟩ ],
          vrels := [] } ],
    config := ⟨ mongoDbTag, "jwt" ⟩ }

/-! ## Theorems -/

/-- C3: Generation is atomic at commit time.  If any failure was recorded,
the Output Manager performs no write and the target directory's pre-run
state is unchanged; with zero failures it performs the full write phase. -/
theorem commit_atomic_on_failure (failures : List String) (arts : List Artifact)
    (fs : FileSys) :
    (failures ≠ [] → commitRun failures arts fs = fs)
    ∧ commitRun [] arts fs = arts.foldl writeArtifact fs := by
  constructor
  · intro h
    simp [commitRun, List.isEmpty_iff, h]
  · rfl

/-- Witness for C3 at a concrete failed run. -/
theorem commit_atomic_on_failure_witness :
    commitRun [ "render failed: item" ] [ ⟨ "src/models/item.ts", [ "x" ] ⟩ ]
        [ ("src/old.ts", [ "y" ]) ]
      = [ ("src/old.ts", [ "y" ]) ] :=
  (commit_atomic_on_failure _ _ _).1 (by decide)

/-- C10: the generated config module asserts that PORT, MONGODB_URI and
JWT_SECRET are set, yet the exported port falls back to 3000 whenever
`Number(process.env.PORT)` is NaN or 0, so passing the PORT assertion does
not guarantee that `config.port` reflects the environment value. -/
theorem config_port_fallback :
    (∀ env c s, loadConfig env = .ok c → env.envPORT = some s →
        (jsNumberInt s = none ∨ jsNumberInt s = some 0) → c.port = 3000)
    ∧ (∀ uri sec dom, loadConfig ⟨ none, uri, sec, dom ⟩ = .error portAssertMsg)
    ∧ (∃ env c, loadConfig env = .ok c ∧ truthyEnv env.envPORT = true ∧
        env.envPORT = some "abc" ∧ c.port = 3000) := by
  refine ⟨?_, ?_, ?_⟩
  · intro env c s hok hport hnan
    unfold loadConfig at hok
    split at hok
    · exact absurd hok (by simp)
    · split at hok
      · exact absurd hok (by simp)
      · split at hok
        · exact absurd hok (by simp)
        · rw [Except.ok.injEq] at hok
          subst hok
          rcases hnan with h | h <;> simp [hport, h, jsOrInt]
  · intro uri sec dom
    simp [loadConfig, truthyEnv]
  · exact ⟨ ⟨ some "abc", some "mongodb://x", some "secret", none ⟩, _, rfl, by decide,
      rfl, by decide ⟩

/-- Witness for C10 at a concrete environment: `PORT=abc` passes the
assertion yet the exported port is 3000. -/
theorem config_port_fallback_witness :
    loadConfig ⟨ some "abc", some "u", some "s", none ⟩
        = .ok ⟨ 3000, "u", "s", domainDefault ⟩
      ∧ (AppConfig.mk 3000 "u" "s" domainDefault).port = 3000 :=
  ⟨ rfl,
    config_port_fallback.1 ⟨ some "abc", some "u", some "s", none ⟩ _ "abc"
      rfl rfl (Or.inl (by decide)) ⟩

/-- C5 counterexample: the repository's template texts are not limited to
the three filter kinds — the README's example template applies a `date`
filter, which is none of case transformation, list joining or indentation. -/
theorem template_filters_counterexample :
    ¬ (∀ t ∈ repoTemplates, ∀ f ∈ t.filtersUsed, filterKind f ≠ FilterKind.other) := by
  decide

/-- C5 amended: every filter applied in the shipped template files of the
repository (the modelv3 model template, the app-entrypoint template and the
first-version model template) is one of the three supported kinds; only the
README documentation example additionally shows a `date` filter. -/
theorem template_filters_amended :
    ∀ t ∈ shippedTemplates, ∀ f ∈ t.filtersUsed, filterKind f ≠ FilterKind.other := by
  decide

/-- Witness for C5 (amended) at a concrete template and filter. -/
theorem template_filters_amended_witness :
    filterKind filterLower ≠ FilterKind.other :=
  template_filters_amended modelv3Template (by decide) filterLower (by decide)

/-- C2: semantic validation aggregates.  The diagnostic list is the sum of
the six independent rule families' violations; a schema with at least one
violation fails with a single `SchemaError` carrying exactly that complete
list, and a violation-free schema validates. -/
theorem validation_reports_all_violations (s : VSchema) :
    (validateDiags s).length =
        (ruleMissingFields s).length + (ruleDupFields s).length
          + (ruleEmptyEnums s).length + (ruleDanglingRelations s).length
          + (ruleUnknownEvents s).length + (ruleConfig s).length
    ∧ (validateDiags s ≠ [] → validate s = .error ⟨ validateDiags s ⟩)
    ∧ (validateDiags s = [] → validate s = .ok s) := by
  refine ⟨?_, ?_, ?_⟩
  · simp [validateDiags]
    ring
  · intro h
    simp [validate, h]
  · intro h
    simp [validate, h]

/-- Witness for C2: a schema with four independent violations (a model with
no fields, a duplicate field name, an unknown hook event, a dangling
relation target) fails with exactly four diagnostics. -/
theorem validation_reports_all_violations_witness :
    validate demoBadSchema = .error ⟨ validateDiags demoBadSchema ⟩
      ∧ (validateDiags demoBadSchema).length = 4
      ∧ validate demoGoodSchema = .ok demoGoodSchema :=
  ⟨ (validation_reports_all_violations demoBadSchema).2.1 (by decide), by decide,
    (validation_reports_all_violations demoGoodSchema).2.2 (by decide) ⟩

/-- C9: the generated authentication middleware calls `next()` (attaching
the resolved user to the request) exactly when a bearer token is present,
verifies against the configured secret, and resolves to an existing user;
in every other case — absent or empty token, verification error, database
error, unknown user — it responds 401 without calling `next()`. -/
theorem authMiddleware_gate (authHeader : Option String)
    (verifyTok : String → Except String JwtPayload)
    (findUser : String → Except String (Option UserRec)) (u : UserRec) :
    authMiddleware authHeader verifyTok findUser = .callNext u ↔
      ∃ h, authHeader = some h ∧ stripBearerOnce h ≠ "" ∧
        ∃ p, verifyTok (stripBearerOnce h) = .ok p ∧ findUser p.id = .ok (some u) := by
  constructor
  · intro he
    match hh : authHeader with
    | none => simp [authMiddleware, hh] at he
    | some h =>
      refine ⟨h, rfl, ?_⟩
      by_cases ht : stripBearerOnce h = ""
      · simp [authMiddleware, ht] at he
      · refine ⟨ht, ?_⟩
        match hv : verifyTok (stripBearerOnce h) with
        | .error e => simp [authMiddleware, ht, hv] at he
        | .ok p =>
          refine ⟨p, rfl, ?_⟩
          match hf : findUser p.id with
          | .error e => simp [authMiddleware, ht, hv, hf] at he
          | .ok none => simp [authMiddleware, ht, hv, hf] at he
          | .ok (some u2) =>
            simp [authMiddleware, ht, hv, hf] at he
            rw [he]
  · rintro ⟨h, rfl, ht, p, hv, hf⟩
    simp [authMiddleware, ht, hv, hf]

/-- Witness for C9: a valid bearer token resolving to an existing user
passes through with the user attached. -/
theorem authMiddleware_gate_witness :
    authMiddleware (some "Bearer tok1")
        (fun _ => Except.ok ⟨ "id1" ⟩)
        (fun _ => Except.ok (some ⟨ "user1" ⟩))
      = MwOutcome.callNext ⟨ "user1" ⟩ :=
  (authMiddleware_gate _ _ _ _).mpr
    ⟨ "Bearer tok1", rfl, by decide, ⟨ "id1" ⟩, rfl, rfl ⟩

/-! ### Stable ordering of the final artifact list -/

theorem sorted_pathLt_of_sorted_nodup {l : List Artifact}
    (hs : List.Sorted pathLe l) (hn : pathsNodup l) : List.Sorted pathLt l := by
  unfold pathsNodup at hn
  have hne : List.Pairwise (fun a b : Artifact => a.path ≠ b.path) l :=
    (List.pairwise_map).mp hn
  exact (hs.and hne).imp (fun h => lt_of_le_of_ne h.1 h.2)

theorem sorted_unique {l₁ l₂ : List Artifact} (hp : l₁.Perm l₂)
    (h₁ : List.Sorted pathLe l₁) (h₂ : List.Sorted pathLe l₂)
    (hn : pathsNodup l₁) : l₁ = l₂ := by
  have hn₂ : pathsNodup l₂ := by
    unfold pathsNodup at hn ⊢
    exact ((hp.map Artifact.path).nodup_iff).mp hn
  exact List.eq_of_perm_of_sorted hp (sorted_pathLt_of_sorted_nodup h₁ hn)
    (sorted_pathLt_of_sorted_nodup h₂ hn₂)

theorem sortArtifacts_perm (l : List Artifact) : (sortArtifacts l).Perm l :=
  List.perm_insertionSort pathLe l

theorem sortArtifacts_sorted (l : List Artifact) : List.Sorted pathLe (sortArtifacts l) :=
  List.sorted_insertionSort pathLe l

theorem pathsNodup_of_perm {l₁ l₂ : List Artifact} (hp : l₁.Perm l₂)
    (hn : pathsNodup l₂) : pathsNodup l₁ := by
  unfold pathsNodup at hn ⊢
  exact ((hp.map Artifact.path).nodup_iff).mpr hn

theorem generateOrd_eq_of_perm {order : List Model} {s : GenSchema}
    (hperm : order.Perm s.models) (hn : pathsNodup (stagedArtifacts s.models s)) :
    generateOrd order s = generate s := by
  have hstaged : (stagedArtifacts order s).Perm (stagedArtifacts s.models s) :=
    (hperm.map modelArtifact).append_right _
  have hp : (generateOrd order s).Perm (generate s) :=
    ((sortArtifacts_perm _).trans hstaged).trans (sortArtifacts_perm _).symm
  exact sorted_unique hp (sortArtifacts_sorted _) (sortArtifacts_sorted _)
    (pathsNodup_of_perm ((sortArtifacts_perm _).trans hstaged) hn)

/-- C1: rendering is deterministic — identical contexts give identical
rendered text — and a full generation run yields a byte-identical artifact
list regardless of the execution order of the per-model work, so two runs
with identical schema and config produce identical artifact sets. -/
theorem rendering_deterministic :
    (∀ m₁ m₂ : Model, m₁ = m₂ → renderModelV3 m₁ = renderModelV3 m₂)
    ∧ (∀ (s : GenSchema) (o₁ o₂ : List Model), o₁.Perm s.models → o₂.Perm s.models →
        pathsNodup (stagedArtifacts s.models s) → generateOrd o₁ s = generateOrd o₂ s) := by
  refine ⟨fun m₁ m₂ h => by rw [h], fun s o₁ o₂ h₁ h₂ hn => ?_⟩
  rw [generateOrd_eq_of_perm h₁ hn, generateOrd_eq_of_perm h₂ hn]

/-- Witness for C1: two runs of the demo schema with the per-model work in
opposite orders produce the same artifact list. -/
theorem rendering_deterministic_witness :
    generateOrd [ demoItem, demoMongoAuthUser ] demoSchema
      = generateOrd [ demoMongoAuthUser, demoItem ] demoSchema :=
  rendering_deterministic.2 demoSchema _ _ (by decide) (by decide) (by decide)

theorem modelArtifact_path_ne_app (m : Model) : (modelArtifact m).path ≠ appPath :=
  ne_of_chunk modelsDirPrefix _ _
    (strInfix_left _ _ _ (strInfix_left _ _ _ (strInfix_refl _))) (by decide)

/-- C7: the staged run consists of the per-model artifacts followed by the
project-level artifact, which is produced exactly once (with the full
Schema as context, by the type of `appArtifact`); the final artifact list
is sorted by output path and is the same for every execution order of the
per-model work. -/
theorem project_artifacts_ordering (s : GenSchema) :
    stagedArtifacts s.models s = s.models.map modelArtifact ++ [ appArtifact s ]
    ∧ ((stagedArtifacts s.models s).filter (fun a => a.path == appPath)).length = 1
    ∧ List.Sorted pathLe (generate s)
    ∧ (∀ order, order.Perm s.models → pathsNodup (stagedArtifacts s.models s) →
        generateOrd order s = generate s) := by
  refine ⟨rfl, ?_, sortArtifacts_sorted _, fun order hp hn => generateOrd_eq_of_perm hp hn⟩
  have h1 : (s.models.map modelArtifact).filter (fun a => a.path == appPath) = [] := by
    rw [List.filter_eq_nil_iff]
    intro a ha
    rcases List.mem_map.mp ha with ⟨m, _, rfl⟩
    simp [modelArtifact_path_ne_app m]
  rw [stagedArtifacts, List.filter_append, h1]
  simp [appArtifact]

/-- Witness for C7: an out-of-order run of the demo schema matches the
canonical run. -/
theorem project_artifacts_ordering_witness :
    generateOrd [ demoMongoAuthUser, demoItem ] demoSchema = generate demoSchema :=
  (project_artifacts_ordering demoSchema).2.2.2 _ (by decide) (by decide)

/-! ### The credential-hashing hook under the auth feature flag -/

theorem prepare_features (m : Model) : (prepareModel m).features = m.features := by
  unfold prepareModel
  split <;> rfl

theorem prepare_hooks_auth (m : Model) (h : m.features.auth = true) :
    (prepareModel m).hooks = m.hooks ++ [ credentialHashingHook ] := by
  simp [prepareModel, h]

/-- C4 counterexample: an authentication-enabled model whose storage backend
is Firestore renders with the bcrypt import but with no password-hashing
hook at all — the modelv3 template renders hooks only in its MongoDB
branch, so the claim "a model with the auth flag yields an artifact that
contains a credential-hashing hook" fails on this model. -/
theorem auth_hook_counterexample :
    demoFbAuthUser.features.auth = true
    ∧ importBcryptLine ∈ renderModelV3 (prepareModel demoFbAuthUser)
    ∧ ¬ containsCredentialHook (renderModelV3 (prepareModel demoFbAuthUser)) := by
  decide

/-- C4 amended: an auth-enabled model always gets the bcrypt import, and —
when its storage backend is MongoDB — its rendered artifact contains the
credential-hashing pre-save hook; a model without the flag has no
credential-hashing hook pulled in by the orchestrator; and the per-model
artifact map leaves every other model's artifact unchanged when one model
changes. -/
theorem auth_hook_amended (m : Model) :
    (m.features.auth = true → importBcryptLine ∈ renderModelV3 (prepareModel m))
    ∧ (m.features.auth = true → m.features.database = mongoDbTag →
        containsCredentialHook (renderModelV3 (prepareModel m)))
    ∧ (m.features.auth = false → prepareModel m = m)
    ∧ (∀ (ms₁ ms₂ : List Model) (i : Nat), (∀ j, j ≠ i → ms₁[j]? = ms₂[j]?) →
        ∀ j, j ≠ i → (ms₁.map modelArtifact)[j]? = (ms₂.map modelArtifact)[j]?) := by
  refine ⟨?_, ?_, ?_, ?_⟩
  · intro hauth
    have hf : (prepareModel m).features.auth = true := by
      rw [prepare_features]; exact hauth
    simp [renderModelV3, importsSection, hf]
  · intro hauth hdb
    unfold containsCredentialHook
    have hf : (prepareModel m).features.database = mongoDbTag := by
      rw [prepare_features]; exact hdb
    have hhk : credentialHashingHook ∈ (prepareModel m).hooks := by
      rw [prepare_hooks_auth m hauth]; simp
    have hline : credentialHashCallLine ∈
        mongoHookBlock (lowerStr (prepareModel m).name) (prepareModel m).name
          credentialHashingHook := by
      unfold mongoHookBlock
      refine List.mem_append.mpr (Or.inl (List.mem_append.mpr (Or.inr ?_)))
      decide
    have hbody : credentialHashCallLine ∈ mongoBody (prepareModel m) := by
      unfold mongoBody
      refine List.mem_append.mpr (Or.inl (List.mem_append.mpr (Or.inl
        (List.mem_append.mpr (Or.inr ?_)))))
      exact List.mem_flatMap.mpr ⟨credentialHashingHook, hhk, hline⟩
    unfold renderModelV3
    refine List.mem_append.mpr (Or.inl (List.mem_append.mpr (Or.inr ?_)))
    rw [bodySection, if_pos hf]
    exact hbody
  · intro hauth
    simp [prepareModel, hauth]
  · intro ms₁ ms₂ i h j hj
    rw [List.getElem?_map, List.getElem?_map, h j hj]

/-- Witness for C4 (amended): the MongoDB auth-enabled demo model's
artifact contains the bcrypt import and the credential-hashing hook. -/
theorem auth_hook_amended_witness :
    importBcryptLine ∈ renderModelV3 (prepareModel demoMongoAuthUser)
    ∧ containsCredentialHook (renderModelV3 (prepareModel demoMongoAuthUser)) :=
  ⟨ (auth_hook_amended demoMongoAuthUser).1 (by decide),
    (auth_hook_amended demoMongoAuthUser).2.1 (by decide) (by decide) ⟩

/-- C6: iteration during rendering follows declaration order.  The rendered
output decomposes around `List.map` / `List.flatMap` images of the model's
field, method and hook sequences, so the rendered field, method and hook
blocks appear in exactly the declaration order of the source schema (in the
Firestore branch, hooks are not iterated at all). -/
theorem render_iteration_order (m : Model) :
    (∃ p₁ p₂, renderModelV3 m =
        p₁ ++ m.fields.map ifaceFieldLine ++ m.methods.map ifaceMethodLine ++ p₂)
    ∧ (m.features.database = mongoDbTag →
        ∃ q₁ q₂ q₃ q₄, renderModelV3 m =
          q₁ ++ m.fields.map ifaceFieldLine ++ m.methods.map ifaceMethodLine
            ++ q₂ ++ m.fields.flatMap schemaFieldBlock
            ++ q₃ ++ m.hooks.flatMap (mongoHookBlock (lowerStr m.name) m.name)
            ++ m.methods.flatMap (mongoMethodBlock (lowerStr m.name)) ++ q₄)
    ∧ (m.features.database ≠ mongoDbTag →
        ∃ r₁ r₂ r₃ r₄ r₅, renderModelV3 m =
          r₁ ++ m.fields.map ifaceFieldLine ++ m.methods.map ifaceMethodLine
            ++ r₂ ++ m.fields.map ifaceFieldLine ++ r₃ ++ m.fields.map fbCtorLine
            ++ r₄ ++ m.methods.flatMap fbMethodBlock ++ r₅) := by
  refine ⟨?_, ?_, ?_⟩
  · by_cases hdb : m.features.database = mongoDbTag
    · refine ⟨ [ headerComment ] ++ importsSection m
          ++ [ "// Define the " ++ m.name ++ " interface",
               "interface I" ++ m.name ++ " extends Document \x7b" ],
        [ "\x7d" ] ++ bodySection m ++ [ "export default " ++ m.name ++ ";" ], ?_⟩
      simp [renderModelV3, interfaceSection, hdb, List.append_assoc]
    · refine ⟨ [ headerComment ] ++ importsSection m
          ++ [ "// Define the " ++ m.name ++ " interface",
               "interface I" ++ m.name ++ " \x7b", "  id: string;" ],
        [ "\x7d" ] ++ bodySection m ++ [ "export default " ++ m.name ++ ";" ], ?_⟩
      simp [renderModelV3, interfaceSection, hdb, List.append_assoc]
  · intro hdb
    refine ⟨ [ headerComment ] ++ importsSection m
        ++ [ "// Define the " ++ m.name ++ " interface",
             "interface I" ++ m.name ++ " extends Document \x7b" ],
      [ "\x7d", "// Define the " ++ lowerStr m.name ++ " schema",
        "const " ++ lowerStr m.name ++ "Schema = new mongoose.Schema<I" ++ m.name ++ ">(\x7b" ],
      [ "\x7d);" ],
      [ "// Create the " ++ lowerStr m.name ++ " model",
        "const " ++ m.name ++ ": Model<I" ++ m.name ++ "> = mongoose.model<I" ++ m.name
          ++ ">(\"" ++ m.name ++ "\", " ++ lowerStr m.name ++ "Schema);",
        "export default " ++ m.name ++ ";" ], ?_⟩
    simp [renderModelV3, interfaceSection, bodySection, mongoBody, hdb, List.append_assoc]
  · intro hdb
    refine ⟨ [ headerComment ] ++ importsSection m
        ++ [ "// Define the " ++ m.name ++ " interface",
             "interface I" ++ m.name ++ " \x7b", "  id: string;" ],
      [ "\x7d", "// Firebase implementation", getFirestoreCallLine,
        "const " ++ lowerStr m.name ++ "Collection = db.collection(\x27" ++ lowerStr m.name ++ "s\x27);",
        "class " ++ m.name ++ " implements I" ++ m.name ++ " \x7b",
        "  id: string;" ],
      [ "  constructor(data: Partial<I" ++ m.name ++ ">) \x7b",
        "    this.id = data.id || \x27\x27;" ],
      [ "  \x7d" ],
      [ "  // Static methods for Firebase operations",
        "  static async findById(id: string): Promise<" ++ m.name ++ " | null> \x7b",
        "    const doc = await " ++ lowerStr m.name ++ "Collection.doc(id).get();",
        "    return doc.exists ? new " ++ m.name ++ "(\x7b id: doc.id, ...doc.data() \x7d) : null;",
        "  \x7d",
        "  static async create(data: Partial<I" ++ m.name ++ ">): Promise<" ++ m.name ++ "> \x7b",
        "    const docRef = await " ++ lowerStr m.name ++ "Collection.add(data);",
        "    return new " ++ m.name ++ "(\x7b id: docRef.id, ...data \x7d);",
        "  \x7d",
        "\x7d",
        "export default " ++ m.name ++ ";" ], ?_⟩
    simp [renderModelV3, interfaceSection, bodySection, firebaseBody, hdb, List.append_assoc]

/-! ### No line of the mongoose branch is the Firestore call

Every line shape the mongoose branch can emit carries a template-fixed
character chunk that does not occur in `const db = getFirestore();`, no
matter what schema content is spliced in. -/

theorem marker_not_in_schemaFieldBlock (f : Field) :
    getFirestoreCallLine ∉ schemaFieldBlock f := by
  intro hmem
  simp only [schemaFieldBlock, List.mem_append, List.mem_cons, List.mem_map,
    List.not_mem_nil, or_false] at hmem
  rcases hmem with ((h | h) | ⟨ov, _, h⟩) | h
  · exact absurd h.symm (ne_of_chunk chColonBrace _ _ (strInfix_right _ _ _ (by decide)) (by decide))
  · exact absurd h.symm (ne_of_chunk chComma _ _ (strInfix_right _ _ _ (by decide)) (by decide))
  · rw [optionLine] at h
    exact absurd h (ne_of_chunk chComma _ _ (strInfix_right _ _ _ (by decide)) (by decide))
  · exact absurd h (by decide)

theorem marker_not_in_hookBlock (low iname : String) (hk : Hook) :
    getFirestoreCallLine ∉ mongoHookBlock low iname hk := by
  intro hmem
  simp only [mongoHookBlock, indentBy, List.mem_append, List.mem_cons, List.mem_map,
    List.not_mem_nil, or_false] at hmem
  rcases hmem with ((h | h) | ⟨x, _, h⟩) | (h | h)
  · exact absurd h.symm (ne_of_chunk chComment _ _ (strInfix_left _ _ _ (by decide)) (by decide))
  · exact absurd h.symm (ne_of_chunk chAsyncFn _ _ (strInfix_right _ _ _ (by decide)) (by decide))
  · exact absurd h (ne_of_chunk chTwoSp _ _ (strInfix_left _ _ _ (by decide)) (by decide))
  · exact absurd h (by decide)
  · exact absurd h (by decide)

theorem marker_not_in_methodBlock (low : String) (mt : Method) :
    getFirestoreCallLine ∉ mongoMethodBlock low mt := by
  intro hmem
  simp only [mongoMethodBlock, indentBy, List.mem_append, List.mem_cons, List.mem_map,
    List.not_mem_nil, or_false] at hmem
  rcases hmem with ((h | h | h | h) | ⟨x, _, h⟩) | h
  · exact absurd h.symm (ne_of_chunk chComment _ _ (strInfix_left _ _ _ (by decide)) (by decide))
  · exact absurd h.symm (ne_of_chunk chAsyncFn _ _ (strInfix_right _ _ _ (by decide)) (by decide))
  · exact absurd h.symm (ne_of_chunk chTwoSp _ _ (strInfix_left _ _ _ (by decide)) (by decide))
  · exact absurd h.symm (ne_of_chunk chGtBrace _ _ (strInfix_right _ _ _ (by decide)) (by decide))
  · exact absurd h (ne_of_chunk chTwoSp _ _ (strInfix_left _ _ _ (by decide)) (by decide))
  · exact absurd h (by decide)

theorem getFirestoreCall_not_in_mongoBody (m : Model) :
    getFirestoreCallLine ∉ mongoBody m := by
  intro hmem
  simp only [mongoBody, List.mem_append, List.mem_cons, List.mem_flatMap,
    List.not_mem_nil, or_false] at hmem
  rcases hmem with (((((h | h) | ⟨f, _, h⟩) | h) | ⟨hk, _, h⟩) | ⟨mt, _, h⟩) | (h | h)
  · exact absurd h.symm (ne_of_chunk chSchemaWord _ _ (strInfix_right _ _ _ (by decide)) (by decide))
  · exact absurd h.symm (ne_of_chunk chParenBrace _ _ (strInfix_right _ _ _ (by decide)) (by decide))
  · exact marker_not_in_schemaFieldBlock f h
  · exact absurd h (by decide)
  · exact marker_not_in_hookBlock _ _ hk h
  · exact marker_not_in_methodBlock _ mt h
  · exact absurd h.symm (ne_of_chunk chModelWord _ _ (strInfix_right _ _ _ (by decide)) (by decide))
  · exact absurd h.symm (ne_of_chunk chSchemaClose _ _ (strInfix_right _ _ _ (by decide)) (by decide))

/-- C8: the modelv3 template dispatches on `model.features.database`.  The
mongoose body is emitted iff the value is `'MONGO_DB'` and the
Firestore-backed class body is emitted for every other value, but the
`firebase-admin/firestore` import is emitted only when the value is
`'FIREBASE'`; so for any other non-MongoDB value, the rendered artifact
calls `getFirestore` without any import of it. -/
theorem modelv3_database_dispatch (m : Model) :
    (m.features.database = mongoDbTag →
        bodySection m = mongoBody m ∧ importMongooseLine ∈ importsSection m)
    ∧ (m.features.database ≠ mongoDbTag → bodySection m = firebaseBody m)
    ∧ (importMongooseLine ∈ importsSection m ↔ m.features.database = mongoDbTag)
    ∧ (importFirestoreLine ∈ importsSection m ↔ m.features.database = firebaseTag)
    ∧ (getFirestoreCallLine ∈ bodySection m ↔ m.features.database ≠ mongoDbTag)
    ∧ (m.features.database ≠ mongoDbTag → m.features.database ≠ firebaseTag →
        getFirestoreCallLine ∈ renderModelV3 m ∧ importFirestoreLine ∉ importsSection m) := by
  have hfb : ∀ h : m.features.database ≠ mongoDbTag,
      getFirestoreCallLine ∈ bodySection m := by
    intro h
    rw [bodySection, if_neg h]
    simp [firebaseBody]
  refine ⟨?_, ?_, ?_, ?_, ?_, ?_⟩
  · intro h
    constructor
    · rw [bodySection, if_pos h]
    · simp [importsSection, h]
  · intro h
    rw [bodySection, if_neg h]
  · constructor
    · intro hmem
      by_contra h
      rcases List.mem_append.mp hmem with h1 | h1
      · by_cases h2 : m.features.database = firebaseTag
        · rw [if_neg h, if_pos h2] at h1
          exact absurd (List.mem_singleton.mp h1) (by decide)
        · rw [if_neg h, if_neg h2] at h1
          exact List.not_mem_nil _ h1
      · split at h1
        · exact absurd (List.mem_singleton.mp h1) (by decide)
        · exact List.not_mem_nil _ h1
    · intro h
      simp [importsSection, h]
  · constructor
    · intro hmem
      by_contra h
      rcases List.mem_append.mp hmem with h1 | h1
      · by_cases h2 : m.features.database = mongoDbTag
        · rw [if_pos h2] at h1
          exact absurd (List.mem_singleton.mp h1) (by decide)
        · rw [if_neg h2, if_neg h] at h1
          exact List.not_mem_nil _ h1
      · split at h1
        · exact absurd (List.mem_singleton.mp h1) (by decide)
        · exact List.not_mem_nil _ h1
    · intro h
      have hne : m.features.database ≠ mongoDbTag := by
        rw [h]; decide
      simp only [importsSection, h, hne, if_neg hne]
      rw [if_neg (by decide)]
      simp
  · constructor
    · intro hmem hdb
      rw [bodySection, if_pos hdb] at hmem
      exact getFirestoreCall_not_in_mongoBody m hmem
    · exact hfb
  · intro h1 h2
    constructor
    · have hb := hfb h1
      unfold renderModelV3
      exact List.mem_append.mpr (Or.inl (List.mem_append.mpr (Or.inr hb)))
    · intro hmem
      rcases List.mem_append.mp hmem with hm | hm
      · rw [if_neg h1, if_neg h2] at hm
        exact List.not_mem_nil _ hm
      · split at hm
        · exact absurd (List.mem_singleton.mp hm) (by decide)
        · exact List.not_mem_nil _ hm

/-- Witness for C8 at a concrete PostgreSQL-tagged model: the artifact calls
`getFirestore` but never imports it. -/
theorem modelv3_database_dispatch_witness :
    getFirestoreCallLine ∈ renderModelV3 demoPgModel
      ∧ importFirestoreLine ∉ importsSection demoPgModel :=
  (modelv3_database_dispatch demoPgModel).2.2.2.2.2 (by decide) (by decide)

/-- Witness for C6 at the concrete MongoDB demo model. -/
theorem render_iteration_order_witness :
    ∃ q₁ q₂ q₃ q₄, renderModelV3 demoMongoAuthUser =
      q₁ ++ demoMongoAuthUser.fields.map ifaceFieldLine
        ++ demoMongoAuthUser.methods.map ifaceMethodLine
        ++ q₂ ++ demoMongoAuthUser.fields.flatMap schemaFieldBlock
        ++ q₃ ++ demoMongoAuthUser.hooks.flatMap
            (mongoHookBlock (lowerStr demoMongoAuthUser.name) demoMongoAuthUser.name)
        ++ demoMongoAuthUser.methods.flatMap
            (mongoMethodBlock (lowerStr demoMongoAuthUser.name)) ++ q₄ :=
  (render_iteration_order demoMongoAuthUser).2.1 (by decide)

end QF
